import Mathlib

/-!
Shallow embedding of `src/A00592TX.cpp` (Acurite 00592TX 433 MHz temperature
probe decoder) and proofs about it.

The repository ships only `A00592TX.cpp`; the companion header `A00592TX.h`
(timing constants, frame geometry constants, the `acurite_00592TX` overlay
struct and the `sensorTemperatureData` slot struct) is not under `src/`.
Constants and struct layouts that live in that header are therefore modelled
from the specification; each such definition carries a doc comment starting
with `Modelled from the spec:`.  Everything else is translated directly from
the C++ source.

Machine integers: durations are `unsigned long`, compared only against small
constants, so they are modelled as `Nat`.  The 16-bit unsigned wrap-around in
the temperature computation (`uint16_t` arithmetic on an AVR target, where
`int` is 16 bits) is modelled explicitly via `% 65536`.
-/

namespace A00592TX

/-- Modelled from the spec: `RING_BUFFER_SIZE` is defined in the missing
header `A00592TX.h`; the spec requires a capacity of at least 120
(8 sync edges + 112 data edges).  We fix 120. -/
def RING_BUFFER_SIZE : Nat := 120

/-- Modelled from the spec: nominal sync high duration, 600 µs (§4.2). -/
def SYNC_HIGH : Nat := 600

/-- Modelled from the spec: nominal sync low duration, 600 µs (§4.2). -/
def SYNC_LOW : Nat := 600

/-- Modelled from the spec: global plausibility lower nominal; the spec's
bounds are `[pulse_short − tol, pulse_long + tol]` and the shortest nominal
pulse is the 200 µs bit pulse. -/
def PULSE_SHORT : Nat := 200

/-- Modelled from the spec: global plausibility upper nominal; the longest
nominal pulse is the 600 µs sync pulse. -/
def PULSE_LONG : Nat := 600

/-- Modelled from the spec: a 1 bit is a ~400 µs high (§4.4). -/
def BIT1_HIGH : Nat := 400

/-- Modelled from the spec: a 1 bit is followed by a ~200 µs low (§4.4). -/
def BIT1_LOW : Nat := 200

/-- Modelled from the spec: a 0 bit is a ~200 µs high (§4.4). -/
def BIT0_HIGH : Nat := 200

/-- Modelled from the spec: a 0 bit is followed by a ~400 µs low (§4.4). -/
def BIT0_LOW : Nat := 400

/-- Modelled from the spec: 8 sync edges (4 high/low pulses). -/
def SYNCPULSEEDGES : Nat := 8

/-- Modelled from the spec: 112 data edges per frame. -/
def DATABITSEDGES : Nat := 112

/-- Modelled from the spec: 56 data bits per frame. -/
def DATABITSCNT : Nat := 56

/-- Modelled from the spec: 7 data bytes per frame. -/
def DATABYTESCNT : Nat := 7

/-- Number of sensor slots; the source comments record
`static const uint8_t _numSensors = 6`. -/
def numSensors : Nat := 6

/-- Battery status mask, recorded in the source comments
(`BATTERY_LOW_MASK = 0xC0`). -/
def SENSOR_BATTERY_LOW_MASK : Nat := 0xC0

/-- Battery low marker value, recorded in the source comments
(`BATTERY_LOW_VAL = 0x80`). -/
def SENSOR_BATTERY_LOW_VAL : Nat := 0x80

/-- Battery low bit in the slot status byte, recorded in the source comments
(`BATTERY_LOW = 0x80`). -/
def SENSOR_BATTERY_LOW : Nat := 0x80

/-- Modelled from the spec: the freshness flag mask in the slot status byte
is defined in the missing header; any single bit disjoint from the battery
bit fits the spec, we use bit 0. -/
def SENSOR_DATA_FRESH_MASK : Nat := 0x01

/-- Modelled from the spec: freshness flag value, matching the mask. -/
def SENSOR_DATA_FRESH_VAL : Nat := 0x01

/-- Modelled from the spec: the staleness timeout in seconds is a
configuration constant from the missing header; its value is irrelevant to
the claims, we fix 300. -/
def SENSOR_STALE_DATA_TIMEOUT : Nat := 300

/-! ## Edge-context state

The module-level mutable state of the capture path: the ring buffer of pulse
durations, the sync bookkeeping, and the statics of `handler_rf433`.
`interruptAttached` models the `attachInterrupt` / `detachInterrupt` calls. -/

structure RxState where
  pulseDurations : Nat → Nat
  syncIndex : Nat
  dataIndex : Nat
  syncFound : Bool
  received : Bool
  changeCount : Nat
  ringIndex : Nat
  interruptAttached : Bool

/-- Store a duration at a ring-buffer index
(`pulseDurations[ringIndex] = duration`). -/
def writePulse (pd : Nat → Nat) (i d : Nat) : Nat → Nat :=
  fun j => if j = i then d else pd j

/-- One iteration of the `isSync` loop body: the pair of durations at
offsets `k` and `k+1` behind `idx` must both be within 100 µs of the
600 µs sync nominal (source lines 180–192). -/
def syncPairOk (pd : Nat → Nat) (idx k : Nat) : Bool :=
  if pd ((idx + RING_BUFFER_SIZE - k - 1) % RING_BUFFER_SIZE) < SYNC_HIGH - 100 ∨
     SYNC_HIGH + 100 < pd ((idx + RING_BUFFER_SIZE - k - 1) % RING_BUFFER_SIZE) ∨
     pd ((idx + RING_BUFFER_SIZE - k) % RING_BUFFER_SIZE) < SYNC_LOW - 100 ∨
     SYNC_LOW + 100 < pd ((idx + RING_BUFFER_SIZE - k) % RING_BUFFER_SIZE) then
    false
  else
    true

/-- `isSync(idx)`: the 8 edges ending at `idx` form 4 in-tolerance sync
pulses.  The source loop runs `i = 0, 2, 4, 6`. -/
def isSync (pd : Nat → Nat) (idx : Nat) : Bool :=
  syncPairOk pd idx 0 && (syncPairOk pd idx 2 &&
    (syncPairOk pd idx 4 && syncPairOk pd idx 6))

/-- The interrupt handler `handler_rf433`, one invocation per edge.  The
edge event carries the elapsed microseconds since the previous edge (the
`micros()` subtraction is the external driver's business per spec §6).
Mirrors source lines 203–273: early return while `received`; plausibility
reset; ring-buffer store and edge count; sync detection; frame-complete
check with `detachInterrupt` on `FRAME_READY`. -/
def handler_rf433 (s : RxState) (duration : Nat) : RxState :=
  if s.received then s
  else
    let s1 : RxState :=
      if PULSE_LONG + 100 < duration ∨ duration < PULSE_SHORT - 100 then
        { s with received := false, syncFound := false, changeCount := 0 }
      else s
    let ri := (s1.ringIndex + 1) % RING_BUFFER_SIZE
    let pd := writePulse s1.pulseDurations ri duration
    let s2 : RxState :=
      { s1 with ringIndex := ri, pulseDurations := pd,
                changeCount := s1.changeCount + 1 }
    let s3 : RxState :=
      if isSync pd ri then
        { s2 with syncFound := true, changeCount := 0, syncIndex := ri,
                  dataIndex := (ri + 1) % RING_BUFFER_SIZE }
      else s2
    if s3.syncFound then
      if s3.changeCount < DATABITSEDGES then
        { s3 with received := false }
      else if DATABITSEDGES < s3.changeCount then
        { s3 with received := false, syncFound := false }
      else
        { s3 with received := true, interruptAttached := false }
    else s3

/-! ## Bit and frame decoding (poll context) -/

/-- `convertTimingToBit(t0, t1)` (source lines 282–293): note the strict
comparisons `>` and `<` in the source. -/
def convertTimingToBit (t0 t1 : Nat) : Int :=
  if BIT1_HIGH - 100 < t0 ∧ t0 < BIT1_HIGH + 100 ∧
     BIT1_LOW - 100 < t1 ∧ t1 < BIT1_LOW + 100 then
    1
  else if BIT0_HIGH - 100 < t0 ∧ t0 < BIT0_HIGH + 100 ∧
          BIT0_LOW - 100 < t1 ∧ t1 < BIT0_LOW + 100 then
    0
  else
    -1

/-- The bit-conversion loop of `loop592` (source lines 356–377): bit `i` is
decoded from the duration pair at ring indices `start + 2i` and
`start + 2i + 1` and ORed into `dataBytes[i/8]` MSB first; a negative
result aborts the frame.  `fuel` counts the remaining iterations. -/
def decodeBitsAux (pd : Nat → Nat) (start : Nat) :
    Nat → Nat → List Nat → Option (List Nat)
  | 0, _, bytes => some bytes
  | fuel + 1, i, bytes =>
    let bit := convertTimingToBit
      (pd ((start + 2 * i) % RING_BUFFER_SIZE))
      (pd ((start + 2 * i + 1) % RING_BUFFER_SIZE))
    if bit < 0 then none
    else
      decodeBitsAux pd start fuel (i + 1)
        (bytes.set (i / 8)
          ((bytes.getD (i / 8) 0) ||| (bit.toNat <<< (7 - i % 8))))

/-- All 56 bits of a frame, starting from the ring index one past the sync
(`ringIndex = (syncIndex+1) % RING_BUFFER_SIZE`). -/
def decodeBits (pd : Nat → Nat) (start : Nat) : Option (List Nat) :=
  decodeBitsAux pd start DATABITSCNT 0 (List.replicate DATABYTESCNT 0)

/-- The checksum accumulation (source lines 380–384): `CRC` is a `uint8_t`
running sum of the first 6 data bytes, so every addition wraps mod 256. -/
def crcSum (bytes : List Nat) : Nat :=
  (bytes.take (DATABYTESCNT - 1)).foldl (fun c b => (c + b) % 256) 0

/-- The sensor id search of `loop592` (source lines 403–412): `id` is preset
to the illegal `_numSensors + 1` and the loop scans the whole table,
overwriting `id` on every match — it does not break. -/
def findSensorId (probeIds : List Nat) (hexID : Nat) : Nat :=
  (List.range numSensors).foldl
    (fun id i => if hexID = probeIds.getD i 0 then i else id)
    (numSensors + 1)

/-! ## Sensor registry and staleness -/

/-- One entry of `sensorData` (the `sensorTemperatureData` struct of the
missing header).  Modelled from the spec: the spec's `SensorReading` records
`temperatureRaw` as a signed integer, so the `temperature` field is the
two's-complement reading of the stored 16-bit pattern; `status` is the
byte holding the battery-low and freshness bits; `id` and `timestamp`
are the fields the source writes. -/
structure SensorSlot where
  id : Nat
  status : Nat
  temperature : Int
  timestamp : Nat
  deriving DecidableEq, Inhabited

/-- Two's-complement reading of a 16-bit pattern, used to interpret the
`uint16_t` temperature computation as the spec's signed value. -/
def toSigned16 (v : Nat) : Int :=
  if v < 32768 then (v : Int) else (v : Int) - 65536

/-- The slot update of `loop592` on an accepted frame (source lines
425–453): set `id`, set or clear the battery-low bit from `byte2 & 0xC0`,
set the freshness bit, store the de-biased 14-bit temperature, and
timestamp.  The source computes `(uint16_t)((temperature-1024)+0.5)` in
16-bit unsigned arithmetic (AVR); adding `0.5` and truncating is the
identity on integers, so the stored pattern is `(raw − 1024) mod 2^16`. -/
def mergeFrame (slot : SensorSlot) (id : Nat) (bytes : List Nat) (now : Nat) :
    SensorSlot :=
  let st1 :=
    if (bytes.getD 2 0) &&& SENSOR_BATTERY_LOW_MASK = SENSOR_BATTERY_LOW_VAL
    then slot.status ||| SENSOR_BATTERY_LOW
    else slot.status &&& (255 - SENSOR_BATTERY_LOW)
  let st2 := st1 ||| (SENSOR_DATA_FRESH_VAL &&& SENSOR_DATA_FRESH_MASK)
  let rawTemp := ((bytes.getD 4 0) &&& 0x7F) * 128 + ((bytes.getD 5 0) &&& 0x7F)
  { id := id + 1, status := st2,
    temperature := toSigned16 ((rawTemp + 65536 - 1024) % 65536),
    timestamp := now }

/-- The body of the `ageStaleData` loop for one slot (source lines
303–309): clear the freshness bit when the timestamp plus the stale
timeout is older than the current time in seconds. -/
def ageSlot (now : Nat) (slot : SensorSlot) : SensorSlot :=
  if slot.timestamp + SENSOR_STALE_DATA_TIMEOUT < now then
    { slot with status := slot.status &&& (255 - SENSOR_DATA_FRESH_MASK) }
  else slot

/-- `ageStaleData()` (source lines 299–310), with `millis()/1000` passed
as `now`. -/
def ageStaleData (sd : List SensorSlot) (now : Nat) : List SensorSlot :=
  sd.map (ageSlot now)

/-- Outcome tag of one `loop592` call, mirroring its early returns. -/
inductive DecodeResult where
  | noFrame
  | bitError
  | crcError
  | unknownId
  | ok (id : Nat) (bytes : List Nat)
  deriving DecidableEq

/-- The whole poll-context state: the capture state shared with the edge
context, the `sensorData` array, and the configured `probeIdArray`. -/
structure SysState where
  rx : RxState
  sensorData : List SensorSlot
  probeIds : List Nat

/-- The flag resets performed on every `loop592` exit from a received
frame — error or success: clear `received` and `syncFound` and re-attach
the interrupt. -/
def reenable592 (rx : RxState) : RxState :=
  { rx with received := false, syncFound := false, interruptAttached := true }

/-- `loop592()` (source lines 341–489).  When `received` is set: decode the
112 data edges into 7 bytes (abort on a bit error), verify the checksum,
look the 16-bit id `byte0 * 256 + byte1` up in `probeIdArray`
(the source applies no mask to `id_high`), and on success merge the frame
into the matched slot.  Each error path returns before `ageStaleData`;
the success and no-frame paths run `ageStaleData` at the end. -/
def loop592 (s : SysState) (now : Nat) : SysState × DecodeResult :=
  if s.rx.received then
    match decodeBits s.rx.pulseDurations
        ((s.rx.syncIndex + 1) % RING_BUFFER_SIZE) with
    | none => ({ s with rx := reenable592 s.rx }, DecodeResult.bitError)
    | some bytes =>
      if crcSum bytes ≠ bytes.getD 6 0 then
        ({ s with rx := reenable592 s.rx }, DecodeResult.crcError)
      else
        let hexID := bytes.getD 0 0 * 256 + bytes.getD 1 0
        let id := findSensorId s.probeIds hexID
        if numSensors < id then
          ({ s with rx := reenable592 s.rx }, DecodeResult.unknownId)
        else
          let sd := s.sensorData.set id
            (mergeFrame (s.sensorData.getD id default) id bytes now)
          ({ s with sensorData := ageStaleData sd now,
                    rx := reenable592 s.rx },
           DecodeResult.ok id bytes)
  else
    ({ s with sensorData := ageStaleData s.sensorData now },
     DecodeResult.noFrame)

/-! ## Concrete frames for witnesses and counterexamples

The end-to-end example frame of spec §8:
bytes `[0xC3, 0x4A, 0x44, 0x90, 0x08, 0x10, checksum]` with
checksum `= (0xC3+0x4A+0x44+0x90+0x08+0x10) mod 256 = 0xF9`. -/

def exampleBytes : List Nat := [0xC3, 0x4A, 0x44, 0x90, 0x08, 0x10, 0xF9]

/-- Same frame with a corrupted trailing checksum byte. -/
def exampleBytesBadCrc : List Nat := [0xC3, 0x4A, 0x44, 0x90, 0x08, 0x10, 0x00]

/-- Bit `i` of a 7-byte frame, MSB first within each byte. -/
def frameBit (bytes : List Nat) (i : Nat) : Bool :=
  Nat.testBit (bytes.getD (i / 8) 0) (7 - i % 8)

/-- A ring-buffer content whose first 112 entries encode the frame with
nominal bit timings (1 bit: 400 µs high, 200 µs low; 0 bit: 200 µs high,
400 µs low), the rest sync-like 600 µs durations. -/
def pulsesOfBytes (bytes : List Nat) : Nat → Nat := fun j =>
  if j < 112 then
    if j % 2 = 0 then (if frameBit bytes (j / 2) then 400 else 200)
    else (if frameBit bytes (j / 2) then 200 else 400)
  else 600

/-- Capture state just after `FRAME_READY` for such a buffer: the sync ended
at ring index 119, so the data bits start at ring index 0. -/
def rxOfPulses (pd : Nat → Nat) : RxState :=
  { pulseDurations := pd, syncIndex := RING_BUFFER_SIZE - 1, dataIndex := 0,
    syncFound := true, received := true, changeCount := DATABITSEDGES,
    ringIndex := 111, interruptAttached := false }

/-- A full poll-context state holding a ready frame for `bytes` with the
registry configured to `ids`. -/
def stateOfFrame (bytes : List Nat) (ids : List Nat) : SysState :=
  { rx := rxOfPulses (pulsesOfBytes bytes),
    sensorData := List.replicate numSensors default,
    probeIds := ids }

/-- Registry holding the spec's expected masked address `0x034A` plus five
of the source's commented sample ids. -/
def registry034A : List Nat := [0x034A, 0x0C34, 0x1E09, 0x26ED, 0x36E7, 0x0604]

/-- Registry holding the full 16-bit value `0xC34A` actually carried by the
example frame, plus five of the source's commented sample ids. -/
def registryC34A : List Nat := [0xC34A, 0x0C34, 0x1E09, 0x26ED, 0x36E7, 0x0604]

/-- A concrete capture state holding a ready frame. -/
def rxReady : RxState :=
  { pulseDurations := fun _ => 600, syncIndex := 7, dataIndex := 8,
    syncFound := true, received := true, changeCount := DATABITSEDGES,
    ringIndex := 7, interruptAttached := false }

/-- A concrete capture state in mid-frame: sync found, 57 edges counted. -/
def rxMidFrame : RxState :=
  { pulseDurations := fun _ => 600, syncIndex := 0, dataIndex := 1,
    syncFound := true, received := false, changeCount := 57,
    ringIndex := 5, interruptAttached := true }

/-- The probe channel, per the protocol table in the source header comment
(lines 74–77) and spec §4.6. -/
inductive Channel where
  | A
  | B
  | C
  | Unknown
  deriving DecidableEq

/-- Modelled from the spec: no code under `src/` extracts a channel field —
the `sensorTemperatureData` slot struct lives in the missing header
`A00592TX.h` and `loop592` never stores the channel — but the protocol
comment of `src/A00592TX.cpp` (lines 74–77) and spec §4.6 fix the mapping
of the top two bits of byte 0: `11 → A`, `10 → B`, `00 → C`, with `01`
undefined (spec §9: treat as an explicit unknown-channel outcome). -/
def channelOfByte0 (b0 : Nat) : Channel :=
  match (b0 >>> 6) &&& 3 with
  | 3 => Channel.A
  | 2 => Channel.B
  | 0 => Channel.C
  | _ => Channel.Unknown

/-! ## C4: the bit templates use strict comparisons -/

/-- C4 counterexample: the durations (300 µs, 200 µs) lie inside the
claimed closed intervals `[400−100, 400+100]` and `[200−100, 200+100]`,
yet `convertTimingToBit` signals a decode error (−1) instead of returning
bit 1, because the source compares with strict `>` and `<`. -/
theorem convertTimingToBit_endpoint_rejected :
    convertTimingToBit 300 200 = -1 ∧
    BIT1_HIGH - 100 ≤ 300 ∧ 300 ≤ BIT1_HIGH + 100 ∧
    BIT1_LOW - 100 ≤ 200 ∧ 200 ≤ BIT1_LOW + 100 := by
  decide

/-- C4 (amended): for every duration pair, `convertTimingToBit` returns 1
iff the high lies strictly inside (400−100, 400+100) µs and the low
strictly inside (200−100, 200+100) µs, returns 0 iff the high lies
strictly inside (200−100, 200+100) µs and the low strictly inside
(400−100, 400+100) µs, and returns −1 (decode error) otherwise; a
duration exactly at an interval endpoint does not match either template. -/
theorem convertTimingToBit_open_intervals (t0 t1 : Nat) :
    (convertTimingToBit t0 t1 = 1 ↔
      300 < t0 ∧ t0 < 500 ∧ 100 < t1 ∧ t1 < 300) ∧
    (convertTimingToBit t0 t1 = 0 ↔
      100 < t0 ∧ t0 < 300 ∧ 300 < t1 ∧ t1 < 500) ∧
    (convertTimingToBit t0 t1 = -1 ↔
      ¬(300 < t0 ∧ t0 < 500 ∧ 100 < t1 ∧ t1 < 300) ∧
      ¬(100 < t0 ∧ t0 < 300 ∧ 300 < t1 ∧ t1 < 500)) := by
  unfold convertTimingToBit BIT1_HIGH BIT1_LOW BIT0_HIGH BIT0_LOW
  split_ifs with h1 h2 <;>
    refine ⟨?_, ?_, ?_⟩ <;> norm_num <;> omega

/-! ## C8: the handler is inert while a frame is in flight -/

/-- C8: while `received` is set (from `FRAME_READY` until the poll context
clears it), any sequence of `handler_rf433` invocations leaves the whole
capture state — ring buffer, edge counter, sync index and sync flag —
unchanged: the handler returns at its first statement. -/
theorem handler_frozen_when_received (s : RxState) (ds : List Nat)
    (h : s.received = true) :
    ds.foldl handler_rf433 s = s := by
  have hstep : ∀ d, handler_rf433 s d = s := by
    intro d
    unfold handler_rf433
    rw [h]
    rfl
  induction ds with
  | nil => rfl
  | cons d t ih => rw [List.foldl_cons, hstep d]; exact ih

/-- C8 witness: three further edges (including implausible ones) arriving
while `rxReady` holds a frame leave the state untouched. -/
theorem handler_frozen_when_received_witness :
    [40, 9000, 600].foldl handler_rf433 rxReady = rxReady :=
  handler_frozen_when_received rxReady [40, 9000, 600] rfl

/-! ## C9: the staleness sweep -/

/-- Clearing a bit leaves that bit cleared: `(st &&& 254) &&& 1 = 0`. -/
lemma and_fresh_cleared (st : Nat) : (st &&& 254) &&& 1 = 0 := by
  rw [Nat.and_assoc]
  have h : (254 &&& 1 : Nat) = 0 := by decide
  rw [h, Nat.and_zero]

/-- Clearing a bit twice is clearing it once. -/
lemma and_clear_idem (st : Nat) : (st &&& 254) &&& 254 = st &&& 254 := by
  rw [Nat.and_assoc]
  have h : (254 &&& 254 : Nat) = 254 := by decide
  rw [h]

/-- One slot of the sweep is idempotent. -/
lemma ageSlot_idem (now : Nat) (slot : SensorSlot) :
    ageSlot now (ageSlot now slot) = ageSlot now slot := by
  unfold ageSlot
  by_cases h : slot.timestamp + SENSOR_STALE_DATA_TIMEOUT < now
  · simp [h, SENSOR_DATA_FRESH_MASK, and_clear_idem]
  · simp [h]

/-- C9: for a slot with timestamp `T` and stale timeout
`S = SENSOR_STALE_DATA_TIMEOUT`: sweeping at `T + S + 1` clears the fresh
flag; sweeping at `T + S − 1` leaves the slot unchanged; a sweep never
modifies `id`, `temperature`, `timestamp`, or any status bit other than
the fresh flag; and sweeping twice with the same `now` equals sweeping
once (idempotence of `ageStaleData`). -/
theorem ageStaleData_spec (sd : List SensorSlot) (slot : SensorSlot) (now : Nat) :
    ((ageSlot (slot.timestamp + SENSOR_STALE_DATA_TIMEOUT + 1) slot).status &&&
        SENSOR_DATA_FRESH_MASK = 0) ∧
    ageSlot (slot.timestamp + SENSOR_STALE_DATA_TIMEOUT - 1) slot = slot ∧
    (ageSlot now slot).id = slot.id ∧
    (ageSlot now slot).temperature = slot.temperature ∧
    (ageSlot now slot).timestamp = slot.timestamp ∧
    ((ageSlot now slot).status &&& (255 - SENSOR_DATA_FRESH_MASK) =
      slot.status &&& (255 - SENSOR_DATA_FRESH_MASK)) ∧
    ageStaleData (ageStaleData sd now) now = ageStaleData sd now := by
  refine ⟨?_, ?_, ?_, ?_, ?_, ?_, ?_⟩
  · rw [ageSlot, if_pos (by omega)]
    show (slot.status &&& 254) &&& 1 = 0
    exact and_fresh_cleared slot.status
  · rw [ageSlot, if_neg (by omega)]
  · unfold ageSlot; split <;> rfl
  · unfold ageSlot; split <;> rfl
  · unfold ageSlot; split <;> rfl
  · unfold ageSlot; split
    · show (slot.status &&& 254) &&& 254 = slot.status &&& 254
      exact and_clear_idem slot.status
    · rfl
  · unfold ageStaleData
    induction sd with
    | nil => rfl
    | cons a t ih =>
      simp only [List.map_cons, ageSlot_idem]
      rw [ih]

/-! ## C10: the sensor id search keeps the last match -/

/-- C10: the linear id search scans the whole `probeIdArray` without
breaking, so when several entries hold the looked-up address the returned
slot index is the highest matching one. -/
theorem findSensorId_last_match (ids : List Nat) (hexID : Nat) (j : Nat)
    (hj : j < numSensors) (hmatch : ids.getD j 0 = hexID)
    (hlast : ∀ k, j < k → k < numSensors → ids.getD k 0 ≠ hexID) :
    findSensorId ids hexID = j := by
  simp only [numSensors] at hj hlast
  unfold findSensorId numSensors
  have hr : List.range 6 = [0, 1, 2, 3, 4, 5] := by decide
  rw [hr]
  simp only [List.foldl_cons, List.foldl_nil]
  interval_cases j
  · rw [if_neg (fun hh => hlast 5 (by omega) (by omega) hh.symm),
        if_neg (fun hh => hlast 4 (by omega) (by omega) hh.symm),
        if_neg (fun hh => hlast 3 (by omega) (by omega) hh.symm),
        if_neg (fun hh => hlast 2 (by omega) (by omega) hh.symm),
        if_neg (fun hh => hlast 1 (by omega) (by omega) hh.symm),
        if_pos hmatch.symm]
  · rw [if_neg (fun hh => hlast 5 (by omega) (by omega) hh.symm),
        if_neg (fun hh => hlast 4 (by omega) (by omega) hh.symm),
        if_neg (fun hh => hlast 3 (by omega) (by omega) hh.symm),
        if_neg (fun hh => hlast 2 (by omega) (by omega) hh.symm),
        if_pos hmatch.symm]
  · rw [if_neg (fun hh => hlast 5 (by omega) (by omega) hh.symm),
        if_neg (fun hh => hlast 4 (by omega) (by omega) hh.symm),
        if_neg (fun hh => hlast 3 (by omega) (by omega) hh.symm),
        if_pos hmatch.symm]
  · rw [if_neg (fun hh => hlast 5 (by omega) (by omega) hh.symm),
        if_neg (fun hh => hlast 4 (by omega) (by omega) hh.symm),
        if_pos hmatch.symm]
  · rw [if_neg (fun hh => hlast 5 (by omega) (by omega) hh.symm),
        if_pos hmatch.symm]
  · rw [if_pos hmatch.symm]

/-- C10 witness: with address 9 registered at indices 0, 3 and 4 the search
returns 4, the highest matching index. -/
theorem findSensorId_last_match_witness :
    findSensorId [9, 7, 3, 9, 9, 2] 9 = 4 :=
  findSensorId_last_match [9, 7, 3, 9, 9, 2] 9 4 (by decide) (by decide)
    (by intro k h1 h2; simp only [numSensors] at h2; interval_cases k; decide)

/-! ## C7: implausible edge durations restart the search -/

/-- After storing an out-of-plausibility duration at index `i`, the sync
window ending at `i` cannot match: the first checked low duration is the
out-of-range edge itself. -/
lemma isSync_write_self (pd : Nat → Nat) (i d : Nat) (hi : i < RING_BUFFER_SIZE)
    (hout : PULSE_LONG + 100 < d ∨ d < PULSE_SHORT - 100) :
    isSync (writePulse pd i d) i = false := by
  have hidx : (i + RING_BUFFER_SIZE - 0) % RING_BUFFER_SIZE = i := by
    simp only [RING_BUFFER_SIZE] at hi ⊢
    omega
  have ht1 : writePulse pd i d ((i + RING_BUFFER_SIZE - 0) % RING_BUFFER_SIZE) = d := by
    rw [hidx]
    simp [writePulse]
  have h1 : syncPairOk (writePulse pd i d) i 0 = false := by
    unfold syncPairOk
    refine if_pos (Or.inr (Or.inr ?_))
    rcases hout with hd | hd
    · refine Or.inr ?_
      rw [ht1]
      simp only [SYNC_LOW, PULSE_LONG] at hd ⊢
      omega
    · refine Or.inl ?_
      rw [ht1]
      simp only [SYNC_LOW, PULSE_SHORT] at hd ⊢
      omega
  unfold isSync
  rw [h1]
  rfl

/-- C7 (amended): on an edge whose duration lies outside the plausibility
bounds, the handler clears the sync flag and restarts the edge counter —
but the offending edge is itself still stored and counted, so after the
handler returns the edge counter is 1, not 0.  The partial frame is
discarded and no frame is flagged as received. -/
theorem handler_out_of_range_resets (s : RxState) (d : Nat)
    (hr : s.received = false)
    (hout : PULSE_LONG + 100 < d ∨ d < PULSE_SHORT - 100) :
    (handler_rf433 s d).received = false ∧
    (handler_rf433 s d).syncFound = false ∧
    (handler_rf433 s d).changeCount = 1 := by
  have hri : (s.ringIndex + 1) % RING_BUFFER_SIZE < RING_BUFFER_SIZE :=
    Nat.mod_lt _ (by decide)
  have hsync := isSync_write_self s.pulseDurations
    ((s.ringIndex + 1) % RING_BUFFER_SIZE) d hri hout
  simp [handler_rf433, hr, hout, hsync]

/-- C7 counterexample: a 5000 µs edge (outside the plausibility bounds)
arriving in mid-frame leaves the edge counter at 1 after the handler
returns — not 0 as the claim states — because the handler stores and
counts the offending edge after the reset. -/
theorem handler_out_of_range_counter_not_zero :
    (handler_rf433 rxMidFrame 5000).changeCount = 1 ∧
    ¬ (handler_rf433 rxMidFrame 5000).changeCount = 0 := by
  decide

/-- C7 witness: the amended claim at the same concrete mid-frame state. -/
theorem handler_out_of_range_resets_witness :
    (handler_rf433 rxMidFrame 5000).received = false ∧
    (handler_rf433 rxMidFrame 5000).syncFound = false ∧
    (handler_rf433 rxMidFrame 5000).changeCount = 1 :=
  handler_out_of_range_resets rxMidFrame 5000 rfl (Or.inl (by decide))

/-! ## Branch equations for `loop592` -/

/-- A bit decode error exits `loop592` before any registry access. -/
lemma loop592_eq_bitError (s : SysState) (now : Nat)
    (hr : s.rx.received = true)
    (hd : decodeBits s.rx.pulseDurations
      ((s.rx.syncIndex + 1) % RING_BUFFER_SIZE) = none) :
    loop592 s now = ({ s with rx := reenable592 s.rx }, DecodeResult.bitError) := by
  simp only [loop592, hr, hd, eq_self_iff_true, if_true]

/-- A checksum mismatch exits `loop592` before any registry access. -/
lemma loop592_eq_crcError (s : SysState) (now : Nat) (bytes : List Nat)
    (hr : s.rx.received = true)
    (hd : decodeBits s.rx.pulseDurations
      ((s.rx.syncIndex + 1) % RING_BUFFER_SIZE) = some bytes)
    (hcc : ¬ crcSum bytes = bytes.getD 6 0) :
    loop592 s now = ({ s with rx := reenable592 s.rx }, DecodeResult.crcError) := by
  simp only [loop592, hr, hd, eq_self_iff_true, if_true]
  rw [if_pos hcc]

/-- An address with no registry match exits `loop592` without a merge. -/
lemma loop592_eq_unknown (s : SysState) (now : Nat) (bytes : List Nat)
    (hr : s.rx.received = true)
    (hd : decodeBits s.rx.pulseDurations
      ((s.rx.syncIndex + 1) % RING_BUFFER_SIZE) = some bytes)
    (hcv : crcSum bytes = bytes.getD 6 0)
    (hid : numSensors <
      findSensorId s.probeIds (bytes.getD 0 0 * 256 + bytes.getD 1 0)) :
    loop592 s now = ({ s with rx := reenable592 s.rx }, DecodeResult.unknownId) := by
  simp only [loop592, hr, hd, eq_self_iff_true, if_true]
  rw [if_neg (not_not_intro hcv), if_pos hid]

/-- The success path of `loop592`: the frame is merged into the slot
returned by `findSensorId` and the sweep runs afterwards. -/
lemma loop592_eq_ok (s : SysState) (now : Nat) (bytes : List Nat)
    (hr : s.rx.received = true)
    (hd : decodeBits s.rx.pulseDurations
      ((s.rx.syncIndex + 1) % RING_BUFFER_SIZE) = some bytes)
    (hcv : crcSum bytes = bytes.getD 6 0)
    (hid : ¬ numSensors <
      findSensorId s.probeIds (bytes.getD 0 0 * 256 + bytes.getD 1 0)) :
    loop592 s now =
      ({ s with
          sensorData := ageStaleData
            (s.sensorData.set
              (findSensorId s.probeIds (bytes.getD 0 0 * 256 + bytes.getD 1 0))
              (mergeFrame
                (s.sensorData.getD
                  (findSensorId s.probeIds (bytes.getD 0 0 * 256 + bytes.getD 1 0))
                  default)
                (findSensorId s.probeIds (bytes.getD 0 0 * 256 + bytes.getD 1 0))
                bytes now))
            now,
          rx := reenable592 s.rx },
       DecodeResult.ok
         (findSensorId s.probeIds (bytes.getD 0 0 * 256 + bytes.getD 1 0))
         bytes) := by
  simp only [loop592, hr, hd, eq_self_iff_true, if_true]
  rw [if_neg (not_not_intro hcv), if_neg hid]

/-! ## C6: error paths leave the registry untouched and re-arm capture -/

/-- C6: whatever error `loop592` hits while holding a received frame — bit
decode error, checksum mismatch or unknown sensor address — the sensor
data array is returned bit-for-bit unchanged (the error paths return even
before `ageStaleData` runs), the ring buffer is untouched, and capture is
re-armed: `received` and `syncFound` cleared, interrupt re-attached. -/
theorem loop592_error_no_update (s : SysState) (now : Nat)
    (hr : s.rx.received = true)
    (herr : (loop592 s now).2 = DecodeResult.bitError ∨
            (loop592 s now).2 = DecodeResult.crcError ∨
            (loop592 s now).2 = DecodeResult.unknownId) :
    (loop592 s now).1.sensorData = s.sensorData ∧
    (loop592 s now).1.rx.received = false ∧
    (loop592 s now).1.rx.syncFound = false ∧
    (loop592 s now).1.rx.interruptAttached = true ∧
    (loop592 s now).1.rx.pulseDurations = s.rx.pulseDurations := by
  rcases hdm : decodeBits s.rx.pulseDurations
      ((s.rx.syncIndex + 1) % RING_BUFFER_SIZE) with _ | bytes
  · rw [loop592_eq_bitError s now hr hdm]
    exact ⟨rfl, rfl, rfl, rfl, rfl⟩
  · by_cases hcc : crcSum bytes = bytes.getD 6 0
    · by_cases hid : numSensors <
          findSensorId s.probeIds (bytes.getD 0 0 * 256 + bytes.getD 1 0)
      · rw [loop592_eq_unknown s now bytes hr hdm hcc hid]
        exact ⟨rfl, rfl, rfl, rfl, rfl⟩
      · exfalso
        rw [loop592_eq_ok s now bytes hr hdm hcc hid] at herr
        rcases herr with h | h | h <;> exact DecodeResult.noConfusion h
    · rw [loop592_eq_crcError s now bytes hr hdm hcc]
      exact ⟨rfl, rfl, rfl, rfl, rfl⟩

/-- C6 witness: the unknown-address error on the example frame (registry
holding the masked id `0x034A` which the code never matches) leaves the
six default slots and the pulse buffer unchanged and re-arms capture. -/
theorem loop592_error_no_update_witness :
    (loop592 (stateOfFrame exampleBytes registry034A) 5).1.sensorData =
      (stateOfFrame exampleBytes registry034A).sensorData ∧
    (loop592 (stateOfFrame exampleBytes registry034A) 5).1.rx.received = false ∧
    (loop592 (stateOfFrame exampleBytes registry034A) 5).1.rx.syncFound = false ∧
    (loop592 (stateOfFrame exampleBytes registry034A) 5).1.rx.interruptAttached = true ∧
    (loop592 (stateOfFrame exampleBytes registry034A) 5).1.rx.pulseDurations =
      (stateOfFrame exampleBytes registry034A).rx.pulseDurations :=
  loop592_error_no_update (stateOfFrame exampleBytes registry034A) 5 rfl
    (Or.inr (Or.inr (by decide)))

/-! ## C5: checksum validation -/

/-- Folding `(c + b) % 256` over a list is the wrapped sum. -/
lemma foldl_add_mod (l : List Nat) (a : Nat) :
    l.foldl (fun c b => (c + b) % 256) (a % 256) = (a + l.sum) % 256 := by
  induction l generalizing a with
  | nil => simp
  | cons b t ih =>
    rw [List.foldl_cons]
    have h : (a % 256 + b) % 256 = (a + b) % 256 := by omega
    rw [h, ih (a + b)]
    simp only [List.sum_cons]
    omega

/-- The source's `uint8_t` running sum over the first six bytes equals the
sum of those bytes mod 256. -/
lemma crcSum_eq_sum_mod (bytes : List Nat) :
    crcSum bytes = (bytes.take 6).sum % 256 := by
  have h := foldl_add_mod (bytes.take 6) 0
  rw [Nat.zero_mod, Nat.zero_add] at h
  unfold crcSum
  exact h

/-- C5: for every decoded 7-byte frame, the checksum check fails (the
`crcError` exit is taken) exactly when `byte 6` differs from the sum of
bytes 0–5 mod 256; and on failure the frame is discarded with no sensor
slot written and the state machine returned to SEARCHING. -/
theorem loop592_checksum (s : SysState) (now : Nat) (bytes : List Nat)
    (hr : s.rx.received = true)
    (hd : decodeBits s.rx.pulseDurations
      ((s.rx.syncIndex + 1) % RING_BUFFER_SIZE) = some bytes) :
    ((loop592 s now).2 = DecodeResult.crcError ↔
      ¬ bytes.getD 6 0 = (bytes.take 6).sum % 256) ∧
    (¬ bytes.getD 6 0 = (bytes.take 6).sum % 256 →
      (loop592 s now).1.sensorData = s.sensorData ∧
      (loop592 s now).1.rx.received = false ∧
      (loop592 s now).1.rx.syncFound = false) := by
  have hcrc := crcSum_eq_sum_mod bytes
  by_cases hcc : crcSum bytes = bytes.getD 6 0
  · have hR : bytes.getD 6 0 = (bytes.take 6).sum % 256 := by
      rw [← hcc, hcrc]
    have hne : (loop592 s now).2 ≠ DecodeResult.crcError := by
      by_cases hid : numSensors <
          findSensorId s.probeIds (bytes.getD 0 0 * 256 + bytes.getD 1 0)
      · rw [loop592_eq_unknown s now bytes hr hd hcc hid]
        exact fun h => DecodeResult.noConfusion h
      · rw [loop592_eq_ok s now bytes hr hd hcc hid]
        exact fun h => DecodeResult.noConfusion h
    exact ⟨iff_of_false hne (fun hcon => hcon hR), fun hcon => absurd hR hcon⟩
  · have hR : ¬ bytes.getD 6 0 = (bytes.take 6).sum % 256 := by
      rw [← hcrc]
      exact fun hh => hcc hh.symm
    rw [loop592_eq_crcError s now bytes hr hd hcc]
    exact ⟨iff_of_true rfl hR, fun _ => ⟨rfl, rfl, rfl⟩⟩

/-- C5 witness: the example frame with its trailing byte corrupted to 0x00
hits the `crcError` exit and no slot is written. -/
theorem loop592_checksum_witness :
    (loop592 (stateOfFrame exampleBytesBadCrc registryC34A) 5).2 =
      DecodeResult.crcError := by
  have h := loop592_checksum (stateOfFrame exampleBytesBadCrc registryC34A) 5
    exampleBytesBadCrc rfl (by decide)
  exact h.1.mpr (by decide)

/-! ## C1: the registry lookup key -/

/-- C1 counterexample: `(0xC3 & 0x3F) ‖ 0x4A` is indeed `0x034A`, and the
example frame decodes to its bytes — yet with `0x034A` registered the
lookup fails (`unknownId`): the source computes
`hexID = id_high * 256 + id_low` with no `0x3F` mask, so the key carries
the channel bits and is `0xC34A`, not `0x034A`. -/
theorem loop592_masked_address_rejected :
    (0xC3 &&& 0x3F) * 256 + 0x4A = 0x034A ∧
    decodeBits (pulsesOfBytes exampleBytes) 0 = some exampleBytes ∧
    (loop592 (stateOfFrame exampleBytes registry034A) 5).2 =
      DecodeResult.unknownId := by
  decide

/-- C1 (amended): for every validated frame the value used for the registry
lookup is the full 16 bits `byte0 * 256 + byte1` — the channel bits of
byte0 are not masked off — so the end-to-end example frame beginning
`[0xC3, 0x4A, ...]` looks up `0xC34A`, and an entry registered as the
masked value `0x034A` does not match. -/
theorem loop592_lookup_uses_unmasked_address (s : SysState) (now : Nat)
    (bytes : List Nat)
    (hr : s.rx.received = true)
    (hd : decodeBits s.rx.pulseDurations
      ((s.rx.syncIndex + 1) % RING_BUFFER_SIZE) = some bytes)
    (hcv : crcSum bytes = bytes.getD 6 0) :
    ((loop592 s now).2 = DecodeResult.unknownId ↔
      numSensors < findSensorId s.probeIds (bytes.getD 0 0 * 256 + bytes.getD 1 0)) ∧
    (findSensorId s.probeIds (bytes.getD 0 0 * 256 + bytes.getD 1 0) ≤ numSensors →
      (loop592 s now).2 =
        DecodeResult.ok
          (findSensorId s.probeIds (bytes.getD 0 0 * 256 + bytes.getD 1 0))
          bytes) := by
  by_cases hid : numSensors <
      findSensorId s.probeIds (bytes.getD 0 0 * 256 + bytes.getD 1 0)
  · rw [loop592_eq_unknown s now bytes hr hd hcv hid]
    exact ⟨iff_of_true rfl hid, fun hle => absurd hid (not_lt.mpr hle)⟩
  · rw [loop592_eq_ok s now bytes hr hd hcv hid]
    exact ⟨iff_of_false (fun h => DecodeResult.noConfusion h) hid, fun _ => rfl⟩

/-- C1 witness: with the unmasked value `0xC34A` registered at slot 0, the
example frame is accepted and merged there. -/
theorem loop592_lookup_uses_unmasked_address_witness :
    (loop592 (stateOfFrame exampleBytes registryC34A) 5).2 =
      DecodeResult.ok
        (findSensorId (stateOfFrame exampleBytes registryC34A).probeIds
          (exampleBytes.getD 0 0 * 256 + exampleBytes.getD 1 0))
        exampleBytes :=
  (loop592_lookup_uses_unmasked_address (stateOfFrame exampleBytes registryC34A)
    5 exampleBytes rfl (by decide) (by decide)).2 (by decide)

/-! ## C2: the stored temperature is the de-biased signed raw value -/

/-- `getD` through a `map`, in bounds. -/
lemma getD_map_lt (f : SensorSlot → SensorSlot) (l : List SensorSlot)
    (n : Nat) (d : SensorSlot) (h : n < l.length) :
    (l.map f).getD n d = f (l.getD n d) := by
  induction l generalizing n with
  | nil => exact absurd h (by simp)
  | cons a t ih =>
    cases n with
    | zero => rfl
    | succ m =>
      simp only [List.map_cons, List.getD_cons_succ]
      exact ih m (by simpa using h)

/-- `getD` after `set` at the same in-bounds index. -/
lemma getD_set_self (l : List SensorSlot) (n : Nat) (x d : SensorSlot)
    (h : n < l.length) :
    (l.set n x).getD n d = x := by
  induction l generalizing n with
  | nil => exact absurd h (by simp)
  | cons a t ih =>
    cases n with
    | zero => rfl
    | succ m =>
      simp only [List.set_cons_succ, List.getD_cons_succ]
      exact ih m (by simpa using h)

/-- The temperature field written by `mergeFrame`, by computation. -/
lemma mergeFrame_temperature (slot : SensorSlot) (id : Nat) (bytes : List Nat)
    (now : Nat) :
    (mergeFrame slot id bytes now).temperature =
      toSigned16 (((((bytes.getD 4 0) &&& 0x7F) * 128 +
        ((bytes.getD 5 0) &&& 0x7F)) + 65536 - 1024) % 65536) := by
  simp [mergeFrame]

/-- The stored 16-bit pattern `(raw − 1024) mod 2^16`, read back as a
two's-complement value, is exactly `raw − 1024` over the integers, for
any 14-bit raw value. -/
lemma toSigned16_sub1024 (raw : Nat) (h : raw ≤ 16383) :
    toSigned16 ((raw + 65536 - 1024) % 65536) = (raw : Int) - 1024 := by
  unfold toSigned16
  rcases Nat.lt_or_ge raw 1024 with h1 | h1
  · rw [Nat.mod_eq_of_lt (by omega), if_neg (by omega)]
    have h2 : raw + 65536 - 1024 = raw + 64512 := by omega
    rw [h2]
    push_cast
    omega
  · have h2 : raw + 65536 - 1024 = (raw - 1024) + 65536 := by omega
    rw [h2, Nat.add_mod_right, Nat.mod_eq_of_lt (by omega), if_pos (by omega),
      Nat.cast_sub h1]
    norm_num

set_option maxRecDepth 4096 in
/-- C2: on the success path of `loop592`, the temperature stored in the
matched slot is the signed integer
`((byte4 & 0x7F) · 128 + (byte5 & 0x7F)) − 1024`, and whenever the 14-bit
raw value is below 1024 the stored temperature is negative. -/
theorem loop592_temperature_debias (s : SysState) (now : Nat) (bytes : List Nat)
    (hr : s.rx.received = true)
    (hd : decodeBits s.rx.pulseDurations
      ((s.rx.syncIndex + 1) % RING_BUFFER_SIZE) = some bytes)
    (hcv : crcSum bytes = bytes.getD 6 0)
    (hle : ¬ numSensors <
      findSensorId s.probeIds (bytes.getD 0 0 * 256 + bytes.getD 1 0))
    (hlen : findSensorId s.probeIds (bytes.getD 0 0 * 256 + bytes.getD 1 0) <
      s.sensorData.length) :
    (((loop592 s now).1.sensorData.getD
        (findSensorId s.probeIds (bytes.getD 0 0 * 256 + bytes.getD 1 0))
        default).temperature =
      ((((bytes.getD 4 0) &&& 0x7F) * 128 + ((bytes.getD 5 0) &&& 0x7F) : Nat) : Int)
        - 1024) ∧
    (((bytes.getD 4 0) &&& 0x7F) * 128 + ((bytes.getD 5 0) &&& 0x7F) < 1024 →
      ((loop592 s now).1.sensorData.getD
        (findSensorId s.probeIds (bytes.getD 0 0 * 256 + bytes.getD 1 0))
        default).temperature < 0) := by
  have hres := loop592_eq_ok s now bytes hr hd hcv hle
  have hraw : ((bytes.getD 4 0) &&& 0x7F) * 128 + ((bytes.getD 5 0) &&& 0x7F)
      ≤ 16383 := by
    have h4 : (bytes.getD 4 0) &&& 0x7F ≤ 0x7F := Nat.and_le_right
    have h5 : (bytes.getD 5 0) &&& 0x7F ≤ 0x7F := Nat.and_le_right
    omega
  have hslot : ((loop592 s now).1.sensorData.getD
      (findSensorId s.probeIds (bytes.getD 0 0 * 256 + bytes.getD 1 0))
      default).temperature =
      ((((bytes.getD 4 0) &&& 0x7F) * 128 + ((bytes.getD 5 0) &&& 0x7F) : Nat) : Int)
        - 1024 := by
    rw [hres]
    show ((ageStaleData (s.sensorData.set _ _) now).getD _ default).temperature = _
    rw [ageStaleData, getD_map_lt _ _ _ _ (by simpa using hlen),
      getD_set_self _ _ _ _ hlen]
    have hage : ∀ slot : SensorSlot, (ageSlot now slot).temperature =
        slot.temperature := by
      intro slot; unfold ageSlot; split <;> rfl
    exact (hage _).trans ((mergeFrame_temperature _ _ _ _).trans
      (toSigned16_sub1024 _ hraw))
  refine ⟨hslot, fun hneg => ?_⟩
  rw [hslot]
  omega

/-- C2 witness: the example frame stores temperature
`(0x08·128 + 0x10) − 1024 = 16` in slot 0. -/
theorem loop592_temperature_debias_witness :
    ((loop592 (stateOfFrame exampleBytes registryC34A) 5).1.sensorData.getD 0
      default).temperature = 16 := by
  have h := loop592_temperature_debias (stateOfFrame exampleBytes registryC34A)
    5 exampleBytes rfl (by decide) (by decide) (by decide) (by decide)
  have hid : findSensorId (stateOfFrame exampleBytes registryC34A).probeIds
      (exampleBytes.getD 0 0 * 256 + exampleBytes.getD 1 0) = 0 := by decide
  rw [hid] at h
  rw [h.1]
  decide

/-! ## C3: the channel mapping -/

set_option maxRecDepth 8192 in
/-- C3: for every byte value, the channel is determined by the top 2 bits
of byte 0 under the mapping `11→A`, `10→B`, `00→C`, with pattern `01`
mapped to the unknown-channel outcome; and the end-to-end example frame
(which decodes to bytes starting `0xC3`) carries channel A. -/
theorem channelOfByte0_mapping :
    (∀ b0 < 256,
      (channelOfByte0 b0 = Channel.A ↔ b0 >>> 6 = 3) ∧
      (channelOfByte0 b0 = Channel.B ↔ b0 >>> 6 = 2) ∧
      (channelOfByte0 b0 = Channel.C ↔ b0 >>> 6 = 0) ∧
      (channelOfByte0 b0 = Channel.Unknown ↔ b0 >>> 6 = 1)) ∧
    decodeBits (pulsesOfBytes exampleBytes) 0 = some exampleBytes ∧
    channelOfByte0 (exampleBytes.getD 0 0) = Channel.A := by
  decide

/-- C3 witness: byte 0 value `0x83` has top bits `10` and maps to
channel B. -/
theorem channelOfByte0_mapping_witness : channelOfByte0 0x83 = Channel.B :=
  ((channelOfByte0_mapping.1 0x83 (by decide)).2.1).mpr (by decide)

end A00592TX
